import Mathlib

/-!
Verification of the resilient scheduled-dispatch engine of the Crm-res
repository.  Each definition is a shallow embedding of a Python function
from the repository's source; times are modelled as natural numbers of
seconds (Unix epoch seconds for wall-clock instants).
-/

namespace CrmRes

/-! ## Circuit breaker
Embedding of `src/services/core-api/src/utils/circuit_breaker.py`.
`time.time()` is passed in explicitly as `now : Nat`. -/

inductive CircuitState where
  | closed
  | opened
  | halfOpen
  deriving DecidableEq, Repr

structure CircuitBreakerConfig where
  failure_threshold : Nat := 5
  success_threshold : Nat := 2
  timeout : Nat := 60
  reset_timeout : Nat := 300
  deriving DecidableEq, Repr

structure CircuitBreaker where
  config : CircuitBreakerConfig
  state : CircuitState := .closed
  failure_count : Nat := 0
  success_count : Nat := 0
  last_failure_time : Option Nat := none
  last_success_time : Option Nat := none
  next_attempt : Nat := 0
  total_requests : Nat := 0
  total_failures : Nat := 0
  total_successes : Nat := 0
  total_rejected : Nat := 0
  deriving DecidableEq, Repr

/-- `CircuitBreaker._open_circuit`. -/
def CircuitBreaker.open_circuit (cb : CircuitBreaker) (now : Nat) : CircuitBreaker :=
  { cb with state := .opened, success_count := 0,
            next_attempt := now + cb.config.timeout }

/-- `CircuitBreaker._close_circuit`. -/
def CircuitBreaker.close_circuit (cb : CircuitBreaker) : CircuitBreaker :=
  { cb with state := .closed, failure_count := 0, success_count := 0 }

/-- `CircuitBreaker._record_success`; `max(0, failure_count - 1)` is
truncated natural subtraction. -/
def CircuitBreaker.record_success (cb : CircuitBreaker) (now : Nat) : CircuitBreaker :=
  let cb := { cb with total_successes := cb.total_successes + 1,
                      last_success_time := some now }
  match cb.state with
  | .halfOpen =>
      let cb := { cb with success_count := cb.success_count + 1 }
      if cb.config.success_threshold ≤ cb.success_count then cb.close_circuit else cb
  | .closed => { cb with failure_count := cb.failure_count - 1 }
  | .opened => cb

/-- `CircuitBreaker._record_failure`: the failure counter is incremented
first, then the state is inspected. -/
def CircuitBreaker.record_failure (cb : CircuitBreaker) (now : Nat) : CircuitBreaker :=
  let cb := { cb with total_failures := cb.total_failures + 1,
                      failure_count := cb.failure_count + 1,
                      last_failure_time := some now }
  match cb.state with
  | .halfOpen => cb.open_circuit now
  | .closed =>
      if cb.config.failure_threshold ≤ cb.failure_count then cb.open_circuit now else cb
  | .opened => cb

/-- `CircuitBreaker._can_execute`: returns whether the call may proceed,
together with the (possibly OPEN→HALF_OPEN transitioned) breaker. -/
def CircuitBreaker.can_execute (cb : CircuitBreaker) (now : Nat) :
    Bool × CircuitBreaker :=
  match cb.state with
  | .closed => (true, cb)
  | .opened =>
      if cb.next_attempt ≤ now then (true, { cb with state := .halfOpen })
      else (false, cb)
  | .halfOpen => (true, cb)

/-- Outcome of `CircuitBreaker.call`: `rejected` models raising
`CircuitBreakerException` without invoking the wrapped operation. -/
inductive CallResult where
  | rejected
  | succeeded
  | failed
  deriving DecidableEq, Repr

/-- `CircuitBreaker.call`: the wrapped operation's outcome is passed in as
`op_succeeds` (it is only consulted when the breaker permits the call). -/
def CircuitBreaker.call (cb : CircuitBreaker) (now : Nat) (op_succeeds : Bool) :
    CallResult × CircuitBreaker :=
  let cb := { cb with total_requests := cb.total_requests + 1 }
  let r := cb.can_execute now
  if r.1 then
    if op_succeeds then (.succeeded, r.2.record_success now)
    else (.failed, r.2.record_failure now)
  else
    (.rejected, { r.2 with total_rejected := r.2.total_rejected + 1 })

/-- `CircuitBreaker.reset`. -/
def CircuitBreaker.reset (cb : CircuitBreaker) : CircuitBreaker :=
  { cb with state := .closed, failure_count := 0, success_count := 0,
            next_attempt := 0 }

/-- A sequence of calls that all fail, executed at the given times. -/
def CircuitBreaker.fail_seq (cb : CircuitBreaker) (ts : List Nat) : CircuitBreaker :=
  ts.foldl (fun c t => (c.call t false).2) cb

/-- A sequence of calls that all succeed, executed at the given times. -/
def CircuitBreaker.succ_seq (cb : CircuitBreaker) (ts : List Nat) : CircuitBreaker :=
  ts.foldl (fun c t => (c.call t true).2) cb

/-! ## Feedback scheduler
Embedding of `src/services/core-api/src/services/feedback_scheduler.py`.
Datetimes are epoch seconds; `timedelta(hours=h)` is `h * 3600` seconds,
`datetime.hour` is `t % 86400 / 3600`. -/

/-- `FeedbackScheduler.min_delay_hours`. -/
def min_delay_hours : Nat := 2

/-- `FeedbackScheduler.max_delay_hours`. -/
def max_delay_hours : Nat := 4

/-- The dictionary returned by `_check_prayer_time_conflict` and its
helpers (the scheduler reads `is_prayer_time` and `next_available_time`). -/
structure PrayerCheck where
  is_prayer_time : Bool
  next_available_time : Nat
  prayer_name : Option String
  source : String
  deriving DecidableEq, Repr

/-- The JSON body returned by the prayer-time API on HTTP 200
(`_fetch_prayer_times`); `none` models a non-200 response. -/
structure ApiPrayerData where
  is_prayer_time : Bool
  prayer_end_time : Nat
  prayer_name : Option String
  deriving DecidableEq, Repr

/-- The API-success branch of `_check_prayer_time_conflict`: a conflicting
reply yields `prayer_end_time` plus the fixed 30-minute buffer; otherwise
the proposed time is returned unchanged with `is_prayer_time = False`. -/
def check_from_api_data (proposed_time : Nat) (prayer_data : Option ApiPrayerData) :
    PrayerCheck :=
  match prayer_data with
  | some d =>
      if d.is_prayer_time then
        { is_prayer_time := true,
          next_available_time := d.prayer_end_time + 30 * 60,
          prayer_name := some (d.prayer_name.getD "Unknown"),
          source := "api" }
      else
        { is_prayer_time := false, next_available_time := proposed_time,
          prayer_name := none, source := "api" }
  | none =>
      { is_prayer_time := false, next_available_time := proposed_time,
        prayer_name := none, source := "api" }

/-- Approximate prayer hours used by `_fallback_prayer_check`. -/
def prayer_hours : List Nat := [5, 12, 15, 18, 19]

/-- `datetime.hour` of an epoch-seconds instant. -/
def hour_of (t : Nat) : Nat := t % 86400 / 3600

/-- Midnight of the calendar day containing `t`
(`t.replace(hour=0, minute=0, second=0, microsecond=0)`). -/
def day_start (t : Nat) : Nat := t / 86400 * 86400

/-- `FeedbackScheduler._fallback_prayer_check` (the `location` argument is
unused by the Python body apart from logging). -/
def fallback_prayer_check (proposed_time : Nat) : PrayerCheck :=
  let hour := hour_of proposed_time
  if hour ∈ prayer_hours then
    let safe_hour := hour + 1
    let safe_hour := if 24 ≤ safe_hour then 6 else safe_hour
    let next_available := day_start proposed_time + safe_hour * 3600
    let next_available :=
      if safe_hour = 6 ∧ 19 ≤ hour then next_available + 86400 else next_available
    { is_prayer_time := true, next_available_time := next_available,
      prayer_name := some "Estimated", source := "fallback" }
  else
    { is_prayer_time := false, next_available_time := proposed_time,
      prayer_name := none, source := "fallback" }

/-- `FeedbackScheduler._check_prayer_time_conflict`, with the outcome of
the breaker-guarded API call passed in: `none` models a raised
`CircuitBreakerException` or any other exception (both fall back),
`some d` models a completed call returning `d`. -/
def check_prayer_time_conflict (proposed_time : Nat)
    (api_result : Option (Option ApiPrayerData)) : PrayerCheck :=
  match api_result with
  | some d => check_from_api_data proposed_time d
  | none => fallback_prayer_check proposed_time

/-- `FeedbackScheduler._calculate_send_time`, with the resolver's reply for
the base candidate passed in as `prayer_check`. -/
def calculate_send_time (visit_timestamp : Nat) (prayer_check : PrayerCheck) : Nat :=
  let base_send_time := visit_timestamp + 3 * 3600
  let base_send_time :=
    if prayer_check.is_prayer_time then prayer_check.next_available_time
    else base_send_time
  let min_time := visit_timestamp + min_delay_hours * 3600
  let max_time := visit_timestamp + max_delay_hours * 3600
  if base_send_time < min_time then min_time
  else if max_time < base_send_time then max_time
  else base_send_time

/-! ## Dispatch worker idempotency guard
Embedding of the status re-validation at the top of
`_send_feedback_message_async` in
`src/services/core-api/src/tasks/feedback_tasks.py`. -/

inductive MessageStatus where
  | scheduled
  | queued
  | sent
  | delivered
  | responded
  | failed
  | cancelled
  deriving DecidableEq, Repr

/-- What `_send_feedback_message_async` decides to do after loading the
message: `error_already s` models returning
`{'error': f"Message already {s}"}` with no send attempt and no state
change; `attempt_send` models proceeding to the WhatsApp send. -/
inductive SendAction where
  | error_not_found
  | error_already (s : MessageStatus)
  | attempt_send
  deriving DecidableEq, Repr

/-- The guard of `_send_feedback_message_async`: `if not message` then
not-found, `if message['status'] != 'scheduled'` then the already-error,
otherwise the send proceeds. -/
def send_feedback_message_guard (message_status : Option MessageStatus) : SendAction :=
  match message_status with
  | none => .error_not_found
  | some s => if s = .scheduled then .attempt_send else .error_already s

/-! ## Gateway message sender retry loop
Embedding of `MessageSender.send_with_retry` in
`src/services/whatsapp-gateway/src/services/message_sender.py`.
`outcomes k` tells whether attempt number `k` succeeds (a failed result or
a raised exception are both retried identically). -/

/-- `MessageSender.max_retries`. -/
def max_retries : Nat := 3

/-- `MessageSender.retry_delay` (seconds). -/
def retry_delay : Nat := 1

/-- `delay = self.retry_delay * (2 ** retries)` — the delay slept before
retry number `retries + 1`. -/
def send_retry_delay (retries : Nat) : Nat := retry_delay * 2 ^ retries

/-- The recursion of `send_with_retry`, structured on the remaining retry
budget `retries_left = max_retries - retries`; returns the final success
flag and the list of backoff delays slept. -/
def send_with_retry_aux (outcomes : Nat → Bool) :
    Nat → Nat → Bool × List Nat
  | retries_left, retries =>
    if outcomes retries then (true, [])
    else
      match retries_left with
      | 0 => (false, [])
      | l + 1 =>
          let delay := send_retry_delay retries
          let rest := send_with_retry_aux outcomes l (retries + 1)
          (rest.1, delay :: rest.2)

/-- `MessageSender.send_with_retry` starting from `retries = 0`. -/
def send_with_retry (outcomes : Nat → Bool) : Bool × List Nat :=
  send_with_retry_aux outcomes max_retries 0

/-- Modelled from the spec: the backoff formula the specification claims
for the worker, `delay = min(maxDelay, initial * base^attempt) * (0.5 + rand())`
with the jitter draw `r = rand()` made explicit (`0 ≤ r < 1`). -/
def spec_backoff_delay (initial base max_delay : ℚ) (attempt : Nat) (r : ℚ) : ℚ :=
  min max_delay (initial * base ^ attempt) * (1/2 + r)

/-! ## AI-processor rate limiter
Embedding of `RateLimitMiddleware.check_rate_limit` in
`src/services/ai-processor/src/middleware/rate_limit.py`.  `time.time()`
is passed in as `now`. -/

/-- Per-client entry of `RateLimitMiddleware.clients`. -/
structure ClientData where
  requests : Nat
  window_start : Nat
  blocked_until : Nat
  deriving DecidableEq, Repr

/-- Outcome of a rate-limit check: `denied status retry_after` models the
raised `HTTPException(status_code, headers={Retry-After: retry_after})`. -/
inductive RLOutcome where
  | allowed
  | denied (status : Nat) (retry_after : Nat)
  deriving DecidableEq, Repr

/-- `RateLimitMiddleware.check_rate_limit` for one client entry and one
endpoint quota, returning the outcome and the updated entry. -/
def ai_check_rate_limit (cd : ClientData) (now max_requests window_seconds : Nat) :
    RLOutcome × ClientData :=
  if now < cd.blocked_until then
    (.denied 429 (cd.blocked_until - now), cd)
  else
    let cd :=
      if window_seconds ≤ now - cd.window_start then
        { requests := 0, window_start := now, blocked_until := 0 }
      else cd
    if max_requests ≤ cd.requests then
      let window_remaining := window_seconds - (now - cd.window_start)
      let block_time := max window_remaining 60
      (.denied 429 block_time, { cd with blocked_until := now + block_time })
    else
      (.allowed, { cd with requests := cd.requests + 1 })

/-! ## Fail-open behaviour of the shared-store rate limiters
Embedding of `RateLimiter.check_rate_limit` in
`src/services/whatsapp-gateway/src/middleware/rate_limiter.py` and of
`RateLimiter._check_window` / `check_rate_limit` in
`src/services/core-api/src/middleware/rate_limiter.py`.  The counter
store's reply is passed in as an `Option`: `none` models a raised
store exception. -/

/-- Gateway `RateLimiter.check_rate_limit`: `incr_result` is the count
returned by the store's atomic increment, `none` a store error. -/
def gw_check_rate_limit (incr_result : Option Nat) (limit : Nat) :
    Bool × Option Nat :=
  match incr_result with
  | some current_count =>
      if limit < current_count then (false, some current_count)
      else (true, some current_count)
  | none => (true, none)

/-- Core-api `RateLimiter._check_window`: on a store error the except
branch returns a count of 0. -/
def core_check_window (store_count : Option Nat) : Nat :=
  match store_count with
  | some c => c
  | none => 0

/-- One endpoint entry of core-api `RateLimiter.limits`. -/
structure CoreLimits where
  requests : Nat
  window : Nat
  burst : Nat
  burst_window : Nat
  deriving DecidableEq, Repr

/-- The error dictionary core-api `check_rate_limit` returns when a limit
is exceeded. -/
structure LimitInfo where
  limit : Nat
  window : Nat
  current : Nat
  retry_after : Nat
  deriving DecidableEq, Repr

/-- Core-api `RateLimiter.check_rate_limit`: main-window check, then
burst-window check; `none` means the request is allowed. -/
def core_check_rate_limit (main_store burst_store : Option Nat)
    (limits : CoreLimits) : Option LimitInfo :=
  let main_count := core_check_window main_store
  if limits.requests < main_count then
    some ⟨limits.requests, limits.window, main_count, limits.window⟩
  else
    let burst_count := core_check_window burst_store
    if limits.burst < burst_count then
      some ⟨limits.burst, limits.burst_window, burst_count, limits.burst_window⟩
    else
      none

/-! ## Circuit-breaker step lemmas -/

/-- A failing call while CLOSED and strictly below the failure threshold
only bumps the counters. -/
theorem call_fail_closed_lt (cb : CircuitBreaker) (t : Nat)
    (h1 : cb.state = .closed)
    (h2 : cb.failure_count + 1 < cb.config.failure_threshold) :
    (cb.call t false).2 =
      { cb with total_requests := cb.total_requests + 1,
                total_failures := cb.total_failures + 1,
                failure_count := cb.failure_count + 1,
                last_failure_time := some t } := by
  obtain ⟨cfg, st, fc, sc, l1, l2, na, tr, tf, tu, tj⟩ := cb
  simp only [CircuitBreaker.state] at h1
  subst h1
  simp only [CircuitBreaker.failure_count, CircuitBreaker.config] at h2
  simp only [CircuitBreaker.call, CircuitBreaker.can_execute, CircuitBreaker.record_failure]
  simp only [if_neg (by omega : ¬ cfg.failure_threshold ≤ fc + 1)]
  simp

/-- A failing call while CLOSED that reaches the failure threshold opens
the breaker with `next_attempt = now + timeout`. -/
theorem call_fail_closed_ge (cb : CircuitBreaker) (t : Nat)
    (h1 : cb.state = .closed)
    (h2 : cb.config.failure_threshold ≤ cb.failure_count + 1) :
    (cb.call t false).2 =
      { cb with total_requests := cb.total_requests + 1,
                total_failures := cb.total_failures + 1,
                failure_count := cb.failure_count + 1,
                last_failure_time := some t,
                state := .opened,
                success_count := 0,
                next_attempt := t + cb.config.timeout } := by
  obtain ⟨cfg, st, fc, sc, l1, l2, na, tr, tf, tu, tj⟩ := cb
  simp only [CircuitBreaker.state] at h1
  subst h1
  simp only [CircuitBreaker.failure_count, CircuitBreaker.config] at h2
  simp only [CircuitBreaker.call, CircuitBreaker.can_execute, CircuitBreaker.record_failure,
    CircuitBreaker.open_circuit]
  simp only [if_pos (by omega : cfg.failure_threshold ≤ fc + 1)]
  simp

/-- Any call while OPEN before `next_attempt` is rejected: the wrapped
operation's outcome `b` is never consulted and only the request/rejection
totals move. -/
theorem call_rejected (cb : CircuitBreaker) (t : Nat) (b : Bool)
    (h1 : cb.state = .opened) (h2 : t < cb.next_attempt) :
    cb.call t b =
      (.rejected,
       { cb with total_requests := cb.total_requests + 1,
                 total_rejected := cb.total_rejected + 1 }) := by
  obtain ⟨cfg, st, fc, sc, l1, l2, na, tr, tf, tu, tj⟩ := cb
  simp only [CircuitBreaker.state] at h1
  subst h1
  simp only [CircuitBreaker.next_attempt] at h2
  simp only [CircuitBreaker.call, CircuitBreaker.can_execute]
  simp only [if_neg (by omega : ¬ na ≤ t)]
  simp

/-- A failing call while HALF_OPEN immediately reopens the breaker with a
rescheduled `next_attempt`. -/
theorem call_fail_halfopen (cb : CircuitBreaker) (t : Nat)
    (h1 : cb.state = .halfOpen) :
    (cb.call t false).2 =
      { cb with total_requests := cb.total_requests + 1,
                total_failures := cb.total_failures + 1,
                failure_count := cb.failure_count + 1,
                last_failure_time := some t,
                state := .opened,
                success_count := 0,
                next_attempt := t + cb.config.timeout } := by
  obtain ⟨cfg, st, fc, sc, l1, l2, na, tr, tf, tu, tj⟩ := cb
  simp only [CircuitBreaker.state] at h1
  subst h1
  simp only [CircuitBreaker.call, CircuitBreaker.can_execute, CircuitBreaker.record_failure,
    CircuitBreaker.open_circuit]
  simp

/-- A successful call while HALF_OPEN strictly below the success threshold
only bumps the success counter. -/
theorem call_succ_halfopen_lt (cb : CircuitBreaker) (t : Nat)
    (h1 : cb.state = .halfOpen)
    (h2 : cb.success_count + 1 < cb.config.success_threshold) :
    (cb.call t true).2 =
      { cb with total_requests := cb.total_requests + 1,
                total_successes := cb.total_successes + 1,
                last_success_time := some t,
                success_count := cb.success_count + 1 } := by
  obtain ⟨cfg, st, fc, sc, l1, l2, na, tr, tf, tu, tj⟩ := cb
  simp only [CircuitBreaker.state] at h1
  subst h1
  simp only [CircuitBreaker.success_count, CircuitBreaker.config] at h2
  simp only [CircuitBreaker.call, CircuitBreaker.can_execute, CircuitBreaker.record_success]
  simp only [if_neg (by omega : ¬ cfg.success_threshold ≤ sc + 1)]
  simp

/-- A successful call while HALF_OPEN that reaches the success threshold
closes the breaker and zeroes both counters. -/
theorem call_succ_halfopen_ge (cb : CircuitBreaker) (t : Nat)
    (h1 : cb.state = .halfOpen)
    (h2 : cb.config.success_threshold ≤ cb.success_count + 1) :
    (cb.call t true).2 =
      { cb with total_requests := cb.total_requests + 1,
                total_successes := cb.total_successes + 1,
                last_success_time := some t,
                state := .closed,
                failure_count := 0,
                success_count := 0 } := by
  obtain ⟨cfg, st, fc, sc, l1, l2, na, tr, tf, tu, tj⟩ := cb
  simp only [CircuitBreaker.state] at h1
  subst h1
  simp only [CircuitBreaker.success_count, CircuitBreaker.config] at h2
  simp only [CircuitBreaker.call, CircuitBreaker.can_execute, CircuitBreaker.record_success,
    CircuitBreaker.close_circuit]
  simp only [if_pos (by omega : cfg.success_threshold ≤ sc + 1)]
  simp

/-- Consecutive failing calls that stay strictly below the failure
threshold keep the breaker CLOSED and accumulate the failure counter. -/
theorem fail_seq_closed (ts : List Nat) :
    ∀ cb : CircuitBreaker, cb.state = .closed →
      cb.failure_count + ts.length < cb.config.failure_threshold →
      (cb.fail_seq ts).state = .closed ∧
      (cb.fail_seq ts).failure_count = cb.failure_count + ts.length ∧
      (cb.fail_seq ts).config = cb.config := by
  induction ts with
  | nil =>
      intro cb h1 _
      exact ⟨h1, by simp [CircuitBreaker.fail_seq], rfl⟩
  | cons t ts ih =>
      intro cb h1 h2
      simp only [List.length_cons] at h2
      have hstep := call_fail_closed_lt cb t h1 (by omega)
      have hfold : cb.fail_seq (t :: ts) = ((cb.call t false).2).fail_seq ts := by
        simp [CircuitBreaker.fail_seq]
      rw [hfold, hstep]
      have h3 := ih { cb with total_requests := cb.total_requests + 1,
                              total_failures := cb.total_failures + 1,
                              failure_count := cb.failure_count + 1,
                              last_failure_time := some t } (by simp [h1]) (by simp; omega)
      refine ⟨h3.1, ?_, h3.2.2⟩
      rw [h3.2.1]
      simp
      omega

/-- Consecutive successful calls that stay strictly below the success
threshold keep the breaker HALF_OPEN and accumulate the success counter. -/
theorem succ_seq_halfopen (ts : List Nat) :
    ∀ cb : CircuitBreaker, cb.state = .halfOpen →
      cb.success_count + ts.length < cb.config.success_threshold →
      (cb.succ_seq ts).state = .halfOpen ∧
      (cb.succ_seq ts).success_count = cb.success_count + ts.length ∧
      (cb.succ_seq ts).config = cb.config := by
  induction ts with
  | nil =>
      intro cb h1 _
      exact ⟨h1, by simp [CircuitBreaker.succ_seq], rfl⟩
  | cons t ts ih =>
      intro cb h1 h2
      simp only [List.length_cons] at h2
      have hstep := call_succ_halfopen_lt cb t h1 (by omega)
      have hfold : cb.succ_seq (t :: ts) = ((cb.call t true).2).succ_seq ts := by
        simp [CircuitBreaker.succ_seq]
      rw [hfold, hstep]
      have h3 := ih { cb with total_requests := cb.total_requests + 1,
                              total_successes := cb.total_successes + 1,
                              last_success_time := some t,
                              success_count := cb.success_count + 1 } (by simp [h1]) (by simp; omega)
      refine ⟨h3.1, ?_, h3.2.2⟩
      rw [h3.2.1]
      simp
      omega

/-! ## Claim theorems for the circuit breaker -/

/-- Claim C1: starting CLOSED with `failure_count = 0`, after
`failure_threshold` consecutive failing calls (at times `ts` then `tN`)
the breaker is OPEN with `next_attempt = tN + timeout`, and the very next
call made at any `t2 < next_attempt` returns the typed breaker-open
rejection without invoking the wrapped operation: the result is
`rejected` for either operation outcome `b`, the success/failure totals
are untouched, and the breaker stays OPEN. -/
theorem breaker_opens_after_threshold_failures
    (cb : CircuitBreaker) (ts : List Nat) (tN t2 : Nat) (b : Bool)
    (h1 : cb.state = .closed) (h2 : cb.failure_count = 0)
    (h3 : ts.length + 1 = cb.config.failure_threshold)
    (h4 : t2 < tN + cb.config.timeout) :
    ((cb.fail_seq ts).call tN false).2.state = .opened ∧
    ((cb.fail_seq ts).call tN false).2.next_attempt = tN + cb.config.timeout ∧
    (((cb.fail_seq ts).call tN false).2.call t2 b).1 = .rejected ∧
    (((cb.fail_seq ts).call tN false).2.call t2 b).2.total_successes =
      ((cb.fail_seq ts).call tN false).2.total_successes ∧
    (((cb.fail_seq ts).call tN false).2.call t2 b).2.total_failures =
      ((cb.fail_seq ts).call tN false).2.total_failures ∧
    (((cb.fail_seq ts).call tN false).2.call t2 b).2.state = .opened := by
  have hpre := fail_seq_closed ts cb h1 (by omega)
  have hge : (cb.fail_seq ts).config.failure_threshold ≤
      (cb.fail_seq ts).failure_count + 1 := by
    rw [hpre.2.2, hpre.2.1]; omega
  have hstep := call_fail_closed_ge (cb.fail_seq ts) tN hpre.1 hge
  rw [hstep]
  have hcfg : (cb.fail_seq ts).config = cb.config := hpre.2.2
  have hrej := call_rejected
    { cb.fail_seq ts with
        total_requests := (cb.fail_seq ts).total_requests + 1,
        total_failures := (cb.fail_seq ts).total_failures + 1,
        failure_count := (cb.fail_seq ts).failure_count + 1,
        last_failure_time := some tN,
        state := .opened,
        success_count := 0,
        next_attempt := tN + (cb.fail_seq ts).config.timeout }
    t2 b rfl (by simp [hcfg]; omega)
  rw [hrej]
  simp [hcfg]

/-- Claim C3: (a) while OPEN with `next_attempt ≤ now1`, `_can_execute`
permits the next call and moves the breaker to HALF_OPEN before the call
executes, so the call's result reflects the wrapped operation; (b) from
HALF_OPEN with `success_count = 0`, `success_threshold` consecutive
successful calls close the breaker and zero both counters; (c) a single
failing call in HALF_OPEN immediately reopens the breaker with
`next_attempt` rescheduled to `now3 + timeout`. -/
theorem breaker_recovery
    (cb1 cb2 cb3 : CircuitBreaker) (now1 now3 : Nat) (b : Bool) (ts : List Nat)
    (h1 : cb1.state = .opened) (h2 : cb1.next_attempt ≤ now1)
    (h3 : cb2.state = .halfOpen) (h4 : cb2.success_count = 0)
    (h5 : ts.length = cb2.config.success_threshold)
    (h6 : 1 ≤ cb2.config.success_threshold)
    (h7 : cb3.state = .halfOpen) :
    (cb1.can_execute now1 = (true, { cb1 with state := .halfOpen })) ∧
    ((cb1.call now1 b).1 = if b then .succeeded else .failed) ∧
    ((cb2.succ_seq ts).state = .closed ∧
     (cb2.succ_seq ts).failure_count = 0 ∧
     (cb2.succ_seq ts).success_count = 0) ∧
    ((cb3.call now3 false).2.state = .opened ∧
     (cb3.call now3 false).2.next_attempt = now3 + cb3.config.timeout) := by
  refine ⟨?_, ?_, ?_, ?_⟩
  · obtain ⟨cfg, st, fc, sc, l1, l2, na, tr, tf, tu, tj⟩ := cb1
    simp only [CircuitBreaker.state] at h1
    subst h1
    simp only [CircuitBreaker.next_attempt] at h2
    simp only [CircuitBreaker.can_execute]
    rw [if_pos h2]
  · obtain ⟨cfg, st, fc, sc, l1, l2, na, tr, tf, tu, tj⟩ := cb1
    simp only [CircuitBreaker.state] at h1
    subst h1
    simp only [CircuitBreaker.next_attempt] at h2
    simp only [CircuitBreaker.call, CircuitBreaker.can_execute]
    rw [if_pos h2]
    cases b <;> simp
  · obtain ⟨L, tl, hts⟩ : ∃ L tl, ts = L ++ [tl] := by
      rcases ts.eq_nil_or_concat with h | ⟨L, tl, h⟩
      · exfalso; rw [h] at h5; simp at h5; omega
      · exact ⟨L, tl, by simpa using h⟩
    subst hts
    have hLlen : L.length + 1 = cb2.config.success_threshold := by
      simpa using h5
    have hpre := succ_seq_halfopen L cb2 h3 (by omega)
    have hseq : cb2.succ_seq (L ++ [tl]) = ((cb2.succ_seq L).call tl true).2 := by
      simp [CircuitBreaker.succ_seq]
    have hge : (cb2.succ_seq L).config.success_threshold ≤
        (cb2.succ_seq L).success_count + 1 := by
      rw [hpre.2.2, hpre.2.1, h4]; omega
    have hstep := call_succ_halfopen_ge (cb2.succ_seq L) tl hpre.1 hge
    rw [hseq, hstep]
    simp
  · have hstep := call_fail_halfopen cb3 now3 h7
    rw [hstep]
    simp

/-- Claim C3 witness: a concrete OPEN breaker whose cooldown elapsed, a
concrete HALF_OPEN breaker closed by two successes, and a concrete
HALF_OPEN breaker reopened by one failure. -/
theorem breaker_recovery_witness :
    (({ config := {}, state := .opened, next_attempt := 100 } :
        CircuitBreaker).state = .opened ∧
     ({ config := {}, state := .opened, next_attempt := 100 } :
        CircuitBreaker).next_attempt ≤ 100) ∧
    (({ config := {}, state := .halfOpen } : CircuitBreaker).state = .halfOpen ∧
     ([3, 9] : List Nat).length =
       ({ config := {}, state := .halfOpen } :
          CircuitBreaker).config.success_threshold) ∧
    (({ config := {}, state := .opened, next_attempt := 100 } :
        CircuitBreaker).can_execute 100 =
      (true, { config := {}, state := .halfOpen, next_attempt := 100 }) ∧
     (({ config := {}, state := .halfOpen } : CircuitBreaker).succ_seq
        [3, 9]).state = .closed ∧
     (({ config := {}, state := .halfOpen } : CircuitBreaker).succ_seq
        [3, 9]).success_count = 0 ∧
     (({ config := {}, state := .halfOpen } : CircuitBreaker).call 7
        false).2.state = .opened ∧
     (({ config := {}, state := .halfOpen } : CircuitBreaker).call 7
        false).2.next_attempt = 7 + 60) := by
  have h := breaker_recovery
    { config := {}, state := .opened, next_attempt := 100 }
    { config := {}, state := .halfOpen }
    { config := {}, state := .halfOpen }
    100 7 true [3, 9]
    (by decide) (by decide) (by decide) (by decide) (by decide) (by decide) (by decide)
  exact ⟨⟨by decide, by decide⟩, ⟨by decide, by decide⟩,
    ⟨h.1, h.2.2.1.1, h.2.2.1.2.2, h.2.2.2.1, h.2.2.2.2⟩⟩

/-- Claim C1 witness: with the default configuration (threshold 5), four
failures at times 10..40 then a fifth at 50 open the breaker with
`next_attempt = 110`, and a call at 60 is rejected with the totals for
successes/failures untouched. -/
theorem breaker_opens_after_threshold_failures_witness :
    (({ config := {} } : CircuitBreaker).state = .closed ∧
     ({ config := {} } : CircuitBreaker).failure_count = 0 ∧
     ([10, 20, 30, 40] : List Nat).length + 1 =
       ({ config := {} } : CircuitBreaker).config.failure_threshold ∧
     60 < 50 + ({ config := {} } : CircuitBreaker).config.timeout) ∧
    ((({ config := {} } : CircuitBreaker).fail_seq
        [10, 20, 30, 40]).call 50 false).2.state = .opened ∧
    ((({ config := {} } : CircuitBreaker).fail_seq
        [10, 20, 30, 40]).call 50 false).2.next_attempt = 110 ∧
    (((({ config := {} } : CircuitBreaker).fail_seq
        [10, 20, 30, 40]).call 50 false).2.call 60 true).1 = .rejected := by
  have h := breaker_opens_after_threshold_failures
    { config := {} } [10, 20, 30, 40] 50 60 true
    (by decide) (by decide) (by decide) (by decide)
  exact ⟨⟨by decide, by decide, by decide, by decide⟩, h.1, by decide, h.2.2.1⟩

/-- Every call, whatever the breaker state, increments `total_requests`
and never decreases any lifetime total. -/
theorem call_totals_mono (cb : CircuitBreaker) (now : Nat) (b : Bool) :
    cb.total_requests ≤ (cb.call now b).2.total_requests ∧
    cb.total_successes ≤ (cb.call now b).2.total_successes ∧
    cb.total_failures ≤ (cb.call now b).2.total_failures ∧
    cb.total_rejected ≤ (cb.call now b).2.total_rejected := by
  obtain ⟨cfg, st, fc, sc, l1, l2, na, tr, tf, tu, tj⟩ := cb
  cases st <;> cases b <;>
    simp only [CircuitBreaker.call, CircuitBreaker.can_execute,
      CircuitBreaker.record_success, CircuitBreaker.record_failure,
      CircuitBreaker.open_circuit, CircuitBreaker.close_circuit] <;>
    split_ifs <;> simp

/-- Claim C8: `reset` forces CLOSED and zeroes the failure counter, the
success counter and `next_attempt` while leaving all four lifetime totals
unchanged; and neither `call` (in any state, with any outcome) nor
`reset` ever decreases a lifetime total. -/
theorem breaker_reset_frame (cb : CircuitBreaker) (now : Nat) (b : Bool) :
    cb.reset.state = .closed ∧
    cb.reset.failure_count = 0 ∧
    cb.reset.success_count = 0 ∧
    cb.reset.next_attempt = 0 ∧
    cb.reset.total_requests = cb.total_requests ∧
    cb.reset.total_successes = cb.total_successes ∧
    cb.reset.total_failures = cb.total_failures ∧
    cb.reset.total_rejected = cb.total_rejected ∧
    cb.total_requests ≤ (cb.call now b).2.total_requests ∧
    cb.total_successes ≤ (cb.call now b).2.total_successes ∧
    cb.total_failures ≤ (cb.call now b).2.total_failures ∧
    cb.total_rejected ≤ (cb.call now b).2.total_rejected := by
  have hm := call_totals_mono cb now b
  obtain ⟨cfg, st, fc, sc, l1, l2, na, tr, tf, tu, tj⟩ := cb
  exact ⟨rfl, rfl, rfl, rfl, rfl, rfl, rfl, rfl, hm.1, hm.2.1, hm.2.2.1, hm.2.2.2⟩

/-! ## Claim theorems for the send-time scheduler -/

/-- Claim C2: for every visit timestamp and every resolver reply, the
computed send time lies in `[visit + 2h, visit + 4h]`; moreover the
result is exactly the base candidate `visit + 3h` — replaced by the
resolver's `next_available_time` when the reply is restricted — clamped
into that interval, so the `maxDelay` ceiling takes precedence over a
restricted-window push beyond it. -/
theorem send_time_clamped (visit : Nat) (pc : PrayerCheck) :
    visit + min_delay_hours * 3600 ≤ calculate_send_time visit pc ∧
    calculate_send_time visit pc ≤ visit + max_delay_hours * 3600 ∧
    calculate_send_time visit pc =
      max (visit + min_delay_hours * 3600)
        (min (visit + max_delay_hours * 3600)
          (if pc.is_prayer_time then pc.next_available_time
           else visit + 3 * 3600)) := by
  simp only [calculate_send_time, min_delay_hours, max_delay_hours]
  cases pc.is_prayer_time
  all_goals simp
  all_goals split_ifs <;> omega

/-- Claim C5: with visit time 2025-01-08T14:30:00 (epoch 1736346600) and
the default 3h/2h/4h delays: a non-restricted resolver reply gives
17:30:00 (epoch 1736357400); a reply reporting a restricted window ending
17:45:00 (epoch 1736358300) gives 18:15:00 (epoch 1736360100), the window
end plus the 30-minute buffer, accepted as-is because it does not exceed
the 18:30:00 ceiling (epoch 1736361000). -/
theorem scenario_send_times :
    calculate_send_time 1736346600
      (check_from_api_data (1736346600 + 3 * 3600) (some ⟨false, 0, none⟩)) =
      1736357400 ∧
    calculate_send_time 1736346600
      (check_from_api_data (1736346600 + 3 * 3600)
        (some ⟨true, 1736358300, some "Asr"⟩)) = 1736360100 ∧
    1736346600 = 1736294400 + 14 * 3600 + 30 * 60 ∧
    1736357400 = 1736294400 + 17 * 3600 + 30 * 60 ∧
    1736358300 = 1736294400 + 17 * 3600 + 45 * 60 ∧
    1736360100 = 1736358300 + 30 * 60 ∧
    1736360100 = 1736294400 + 18 * 3600 + 15 * 60 ∧
    1736361000 = 1736346600 + max_delay_hours * 3600 ∧
    1736360100 ≤ 1736361000 := by
  exact ⟨by decide, by decide, by norm_num, by norm_num, by norm_num, by norm_num,
    by norm_num, by decide, by decide⟩

/-- Claim C9: the fallback check reports a restricted window exactly when
the hour-of-day is in the static table `[5, 12, 15, 18, 19]`; in that
case the next available time is the start of the next hour of the same
day (the increment never reaches 24, so the past-midnight wrap to 6 AM
with a date advance can never fire); otherwise the proposed time is
returned unchanged — and `_check_prayer_time_conflict` routes a failed or
breaker-rejected API call to exactly this fallback. -/
theorem fallback_check_static_table (t : Nat) :
    ((fallback_prayer_check t).is_prayer_time = true ↔
      hour_of t ∈ prayer_hours) ∧
    (fallback_prayer_check t).next_available_time =
      (if hour_of t ∈ prayer_hours then day_start t + (hour_of t + 1) * 3600
       else t) ∧
    check_prayer_time_conflict t none = fallback_prayer_check t := by
  refine ⟨?_, ?_, rfl⟩
  · unfold fallback_prayer_check
    by_cases h : hour_of t ∈ prayer_hours <;> simp [h]
  · unfold fallback_prayer_check
    by_cases h : hour_of t ∈ prayer_hours
    · have h' := h
      simp only [prayer_hours, List.mem_cons, List.not_mem_nil, or_false] at h'
      rcases h' with h' | h' | h' | h' | h' <;> simp [h, h', prayer_hours]
    · simp [h]

/-! ## Claim theorem for the dispatch worker idempotency guard -/

/-- Claim C4 (code bug): the worker's re-validation only lets a message in
`scheduled` status through; a message in `queued` status — the very
status the repository's own `send_scheduled_feedback` sweep sets right
after enqueueing the send task — is turned into an `already`-error no-op
exactly like `sent`/`delivered`/`responded`/`cancelled`, contradicting
the specified `scheduled`/`queued` guard. -/
theorem queued_message_is_not_sent :
    send_feedback_message_guard (some .queued) = .error_already .queued ∧
    send_feedback_message_guard (some .scheduled) = .attempt_send ∧
    send_feedback_message_guard (some .sent) = .error_already .sent ∧
    send_feedback_message_guard (some .delivered) = .error_already .delivered ∧
    send_feedback_message_guard (some .responded) = .error_already .responded ∧
    send_feedback_message_guard (some .cancelled) = .error_already .cancelled ∧
    send_feedback_message_guard none = .error_not_found := by
  decide

/-! ## Claim theorems for the gateway sender retry loop -/

/-- Claim C6 counterexample: with the jitter draw `r = 0` (admissible,
since `0 ≤ r < 1`) the claimed formula
`min(maxDelay, initial * base^k) * (0.5 + r)` yields `1/2` second for the
first retry (`initial = retry_delay = 1`, `base = 2`, any cap ≥ 1, here
60), while the code's delay before the first retry is exactly
`retry_delay * 2^0 = 1` second, independent of any jitter draw. -/
theorem backoff_jitter_counterexample :
    (0 : ℚ) ≤ 0 ∧ (0 : ℚ) < 1 ∧
    spec_backoff_delay 1 2 60 0 0 = 1 / 2 ∧
    (send_retry_delay 0 : ℚ) = 1 ∧
    (send_retry_delay 0 : ℚ) ≠ spec_backoff_delay 1 2 60 0 0 := by
  refine ⟨le_refl 0, by norm_num, ?_, ?_, ?_⟩ <;>
    norm_num [spec_backoff_delay, send_retry_delay, retry_delay]

/-- The delays produced by the retry recursion are the deterministic
exponential sequence `retry_delay * 2^k` for consecutive `k` starting at
the first attempt index, and their number never exceeds the remaining
retry budget. -/
theorem send_with_retry_aux_delays (outcomes : Nat → Bool) :
    ∀ retries_left retries : Nat,
      (send_with_retry_aux outcomes retries_left retries).2.length ≤ retries_left ∧
      (send_with_retry_aux outcomes retries_left retries).2 =
        (List.range
          (send_with_retry_aux outcomes retries_left retries).2.length).map
          (fun i => send_retry_delay (retries + i)) := by
  intro retries_left
  induction retries_left with
  | zero =>
      intro retries
      unfold send_with_retry_aux
      by_cases h : outcomes retries <;> simp [h]
  | succ l ih =>
      intro retries
      unfold send_with_retry_aux
      by_cases h : outcomes retries
      · simp [h]
      · obtain ⟨ih1, ih2⟩ := ih (retries + 1)
        simp only [if_neg h, List.length_cons]
        refine ⟨by omega, ?_⟩
        rw [ih2]
        simp only [List.length_map, List.length_range]
        rw [List.range_succ_eq_map, List.map_cons, List.map_map]
        congr 1
        congr 1
        funext i
        simp only [Function.comp_apply]
        congr 1
        omega

/-- Claim C6 amended: for every pattern of attempt outcomes, the worker's
retry loop sleeps the deterministic, uncapped, jitter-free delays
`retry_delay * 2^k` seconds before the (k+1)-th retry, and performs at
most `max_retries = 3` retries. -/
theorem send_with_retry_backoff (outcomes : Nat → Bool) :
    (send_with_retry outcomes).2.length ≤ max_retries ∧
    (send_with_retry outcomes).2 =
      (List.range (send_with_retry outcomes).2.length).map send_retry_delay := by
  obtain ⟨h1, h2⟩ := send_with_retry_aux_delays outcomes max_retries 0
  exact ⟨h1, by simpa using h2⟩

/-! ## Claim theorems for the rate limiters -/

/-- Claim C7: a request arriving while not blocked, inside the current
window, with the request count already at the endpoint's limit, is denied
with HTTP 429 and `Retry-After` equal to the remaining window time but
never less than 60 seconds; `blocked_until = now + Retry-After` is
recorded and the request count is not incremented; and any subsequent
request before `blocked_until` elapses is denied (with the remaining
block time) while leaving the client state — in particular the request
count — completely unchanged. -/
theorem rate_limit_hard_block (cd : ClientData) (now t2 max_requests window_seconds : Nat)
    (hb : cd.blocked_until ≤ now)
    (hw : cd.window_start ≤ now)
    (hwin : now - cd.window_start < window_seconds)
    (hfull : max_requests ≤ cd.requests)
    (ht2 : t2 < now + max (window_seconds - (now - cd.window_start)) 60) :
    60 ≤ max (window_seconds - (now - cd.window_start)) 60 ∧
    (ai_check_rate_limit cd now max_requests window_seconds).1 =
      .denied 429 (max (window_seconds - (now - cd.window_start)) 60) ∧
    (ai_check_rate_limit cd now max_requests window_seconds).2 =
      { cd with blocked_until :=
          now + max (window_seconds - (now - cd.window_start)) 60 } ∧
    ai_check_rate_limit (ai_check_rate_limit cd now max_requests window_seconds).2
        t2 max_requests window_seconds =
      (.denied 429 (now + max (window_seconds - (now - cd.window_start)) 60 - t2),
       (ai_check_rate_limit cd now max_requests window_seconds).2) := by
  obtain ⟨rq, ws, bu⟩ := cd
  simp only [ClientData.blocked_until, ClientData.window_start,
    ClientData.requests] at hb hw hwin hfull ht2
  simp only [ai_check_rate_limit]
  rw [if_neg (by omega : ¬ now < bu)]
  rw [if_neg (by omega : ¬ window_seconds ≤ now - ws)]
  rw [if_pos (by simpa using hfull)]
  refine ⟨le_max_right _ _, rfl, rfl, ?_⟩
  rw [if_pos (by simpa using ht2)]

/-- Claim C7 witness: quota 30 per 60-second window, window started at
100, client already at 30 requests; a request at 110 is denied with
`Retry-After = max(50, 60) = 60` and `blocked_until = 170`; a follow-up
at 150 is denied with the remaining 20 seconds and the state is
unchanged. -/
theorem rate_limit_hard_block_witness :
    (60 : Nat) ≤ max (60 - (110 - 100)) 60 ∧
    (ai_check_rate_limit ⟨30, 100, 0⟩ 110 30 60).1 =
      .denied 429 (max (60 - (110 - 100)) 60) ∧
    (ai_check_rate_limit ⟨30, 100, 0⟩ 110 30 60).2 =
      { requests := 30, window_start := 100,
        blocked_until := 110 + max (60 - (110 - 100)) 60 } ∧
    ai_check_rate_limit (ai_check_rate_limit ⟨30, 100, 0⟩ 110 30 60).2 150 30 60 =
      (.denied 429 (110 + max (60 - (110 - 100)) 60 - 150),
       (ai_check_rate_limit ⟨30, 100, 0⟩ 110 30 60).2) :=
  rate_limit_hard_block ⟨30, 100, 0⟩ 110 150 30 60
    (by decide) (by decide) (by decide) (by decide) (by decide)

/-- Claim C10: a counter-store outage never causes a denial.  The gateway
limiter returns `allowed = true` with a `none` count when the store's
increment raises; the core-api window check turns a store error into a
count of 0, so with both stores erroring the core-api check admits the
request (`none` means allowed). -/
theorem limiter_fails_open (limit : Nat) (limits : CoreLimits) :
    gw_check_rate_limit none limit = (true, none) ∧
    core_check_window none = 0 ∧
    core_check_rate_limit none none limits = none := by
  refine ⟨rfl, rfl, ?_⟩
  simp [core_check_rate_limit, core_check_window]

end CrmRes
